import Mathlib

/-!
Verification of `wexample_helpers_git/helpers/git.py` (branch & upstream
manager).  The library is glue code over an external process runner
(`shell_run` from `wexample_helpers`, an external collaborator) and the
external `git` binary.  We embed each helper shallowly:

* `ShellCall` is the argument vector / stream-inheritance flag / working
  directory handed to the runner; `ShellResult` is the runner's result,
  which — per the collaborator contract — is a plain result object exposing
  captured stdout (optional: `None` when streams are inherited), stderr and
  the exit code.  It is *not* a string.
* A helper is a function of an abstract runner `exec : ShellCall → Except
  PyError ShellResult`: the runner raises (`Except.error`) when the spawned
  process exits non-zero.  Each helper returns its Python result together
  with the trace of shell calls it issued, in order, so that theorems can
  speak about which external commands were run.
* Python dynamic typing is modelled where the source relies on it:
  `.stdout.strip()` on a result whose stdout is `None` raises
  `AttributeError`; comparing a result object to a string with `==` is
  `False`; `in` / `.split` / `.strip` applied to a result object raise
  `TypeError` / `AttributeError`, because the result object is not a string.
* Path resolution (`file_resolve_path`) is an external utility; we model it
  as the identity on the caller-supplied directory string.
-/

/-- Python exception values distinguished by the source: the runner's
command error (non-zero exit), plus the built-in exception classes the
source raises or that its dynamic typing produces. -/
inductive PyError where
  | commandError (argv : List String) (code : Nat)
  | runtimeError (msg : String)
  | valueError (msg : String)
  | typeError (msg : String)
  | attributeError (msg : String)
  deriving DecidableEq, Repr

deriving instance DecidableEq for Except

/-- One invocation of the external process runner: argument vector,
stream-inheritance flag (capture is forced when it is `false`) and working
directory. -/
structure ShellCall where
  argv : List String
  inherit_stdio : Bool
  cwd : String
  deriving DecidableEq, Repr

/-- The runner's result object, per the collaborator contract: captured
stdout (`none` when streams were inherited), captured stderr and exit
code. -/
structure ShellResult where
  stdout : Option String
  stderr : Option String
  exit_code : Nat
  deriving DecidableEq, Repr

/-- An abstract external world: maps each issued call to the runner's
outcome (`Except.error` models the runner raising on non-zero exit). -/
abbrev Exec := ShellCall → Except PyError ShellResult

/-- Python `str.strip()` with no arguments: remove leading and trailing
whitespace. -/
def py_strip (s : String) : String :=
  ⟨((s.data.dropWhile Char.isWhitespace).reverse.dropWhile Char.isWhitespace).reverse⟩

/-- The Python idiom `result.stdout.strip()`: when stdout is `None`
(streams were inherited), attribute access on `None` raises. -/
def stdout_strip (r : ShellResult) : Except PyError String :=
  match r.stdout with
  | some s => .ok (py_strip s)
  | none => .error (.attributeError "NoneType object has no attribute strip")

/-- Python `expr or default` on an optional string: `None` and the empty
string are falsy. -/
def py_or (d : Option String) (dflt : String) : String :=
  match d with
  | none => dflt
  | some s => if s = "" then dflt else s

/-- Python `try: e except Exception: return d`. -/
def try_or {α : Type} (x : Except PyError α) (d : α) : α :=
  match x with
  | .ok a => a
  | .error _ => d

/-- The call issued by `git_current_branch`: capture is hard-coded on. -/
def rev_parse_head_call (cwd : String) : ShellCall :=
  { argv := ["git", "rev-parse", "--abbrev-ref", "HEAD"], inherit_stdio := false, cwd := cwd }

/-- `git_current_branch`: runs `git rev-parse --abbrev-ref HEAD` with
capture forced (`inherit_stdio=False` at the call site regardless of the
caller's flag) and returns the stripped stdout. -/
def git_current_branch (exec : Exec) (cwd : String) (inherit_stdio : Bool) :
    Except PyError String × List ShellCall :=
  ((exec (rev_parse_head_call cwd)).bind stdout_strip, [rev_parse_head_call cwd])

/-- The call issued by `git_get_upstream`: capture hard-coded on. -/
def upstream_call (cwd : String) : ShellCall :=
  { argv := ["git", "rev-parse", "--abbrev-ref", "--symbolic-full-name", "@\x7bu\x7d"],
    inherit_stdio := false, cwd := cwd }

/-- `git_get_upstream`: runs `git rev-parse --abbrev-ref
--symbolic-full-name @{u}` with capture forced; any exception (non-zero
exit: no upstream configured) is swallowed and the empty string
returned. -/
def git_get_upstream (exec : Exec) (cwd : String) (inherit_stdio : Bool) :
    Except PyError String × List ShellCall :=
  (.ok (try_or ((exec (upstream_call cwd)).bind stdout_strip) ""), [upstream_call cwd])

/-- The call issued by `git_set_upstream`:
`git branch --set-upstream-to <remote>/<branch> <branch>`, with the
caller's stream flag passed through. -/
def set_upstream_call (remote branch : String) (cwd : String) (inherit_stdio : Bool) :
    ShellCall :=
  { argv := ["git", "branch", "--set-upstream-to", remote ++ "/" ++ branch, branch],
    inherit_stdio := inherit_stdio, cwd := cwd }

/-- `git_set_upstream`: one shell call, result discarded, runner errors
propagate. -/
def git_set_upstream (exec : Exec) (branch : String) (cwd : String) (remote : String)
    (inherit_stdio : Bool) : Except PyError Unit × List ShellCall :=
  ((exec (set_upstream_call remote branch cwd inherit_stdio)).map (fun _ => ()),
   [set_upstream_call remote branch cwd inherit_stdio])

/-- The fallback call of `git_ensure_upstream`:
`git push -u <remote> <branch>`. -/
def push_u_call (remote branch : String) (cwd : String) (inherit_stdio : Bool) : ShellCall :=
  { argv := ["git", "push", "-u", remote, branch], inherit_stdio := inherit_stdio, cwd := cwd }

/-- `git_ensure_upstream`: query current branch and upstream (both with
capture forced); default the remote with Python `or`; if the upstream is
empty, try `git_set_upstream` and on any exception fall back to
`git push -u`; return the `remote/branch` string on either mutating path,
or the existing upstream unchanged. -/
def git_ensure_upstream (exec : Exec) (cwd : String) (default_remote : Option String)
    (inherit_stdio : Bool) : Except PyError String × List ShellCall :=
  match git_current_branch exec cwd false with
  | (.error e, t1) => (.error e, t1)
  | (.ok branch, t1) =>
    match git_get_upstream exec cwd false with
    | (.error e, t2) => (.error e, t1 ++ t2)
    | (.ok upstream, t2) =>
      let dr := py_or default_remote "origin"
      if upstream = "" then
        match git_set_upstream exec branch cwd dr inherit_stdio with
        | (.ok _, t3) => (.ok (dr ++ "/" ++ branch), t1 ++ t2 ++ t3)
        | (.error _, t3) =>
          match exec (push_u_call dr branch cwd inherit_stdio) with
          | .ok _ =>
            (.ok (dr ++ "/" ++ branch),
             t1 ++ t2 ++ t3 ++ [push_u_call dr branch cwd inherit_stdio])
          | .error e =>
            (.error e, t1 ++ t2 ++ t3 ++ [push_u_call dr branch cwd inherit_stdio])
      else (.ok upstream, t1 ++ t2)

/-- A call is a `git push` invocation. -/
def is_push_cmd (c : ShellCall) : Bool := c.argv.take 2 == ["git", "push"]

/-- A call is a `git branch --set-upstream-to` invocation. -/
def is_set_upstream_cmd (c : ShellCall) : Bool :=
  c.argv.take 3 == ["git", "branch", "--set-upstream-to"]

/-- The call of `git_switch_new_branch`: `git switch -c <branch>`. -/
def switch_new_call (branch : String) (cwd : String) (inherit_stdio : Bool) : ShellCall :=
  { argv := ["git", "switch", "-c", branch], inherit_stdio := inherit_stdio, cwd := cwd }

/-- `git_switch_new_branch`: one shell call, caller's stream flag passed
through, runner errors propagate. -/
def git_switch_new_branch (exec : Exec) (branch : String) (cwd : String)
    (inherit_stdio : Bool) : Except PyError Unit × List ShellCall :=
  ((exec (switch_new_call branch cwd inherit_stdio)).map (fun _ => ()),
   [switch_new_call branch cwd inherit_stdio])

/-- The call of `git_checkout_new_branch`: `git checkout -b <branch>`. -/
def checkout_new_call (branch : String) (cwd : String) (inherit_stdio : Bool) : ShellCall :=
  { argv := ["git", "checkout", "-b", branch], inherit_stdio := inherit_stdio, cwd := cwd }

/-- `git_checkout_new_branch` (compat path): one shell call. -/
def git_checkout_new_branch (exec : Exec) (branch : String) (cwd : String)
    (inherit_stdio : Bool) : Except PyError Unit × List ShellCall :=
  ((exec (checkout_new_call branch cwd inherit_stdio)).map (fun _ => ()),
   [checkout_new_call branch cwd inherit_stdio])

/-- The call of `git_switch_branch`: `git switch <branch>`. -/
def switch_call (branch : String) (cwd : String) (inherit_stdio : Bool) : ShellCall :=
  { argv := ["git", "switch", branch], inherit_stdio := inherit_stdio, cwd := cwd }

/-- `git_switch_branch`: one shell call. -/
def git_switch_branch (exec : Exec) (branch : String) (cwd : String)
    (inherit_stdio : Bool) : Except PyError Unit × List ShellCall :=
  ((exec (switch_call branch cwd inherit_stdio)).map (fun _ => ()),
   [switch_call branch cwd inherit_stdio])

/-- `git_create_or_switch_branch`: try `git switch -c`, on any exception
try `git checkout -b`, on any exception run `git switch`, whose outcome
(success or error) is the function's own. -/
def git_create_or_switch_branch (exec : Exec) (branch : String) (cwd : String)
    (inherit_stdio : Bool) : Except PyError Unit × List ShellCall :=
  match git_switch_new_branch exec branch cwd inherit_stdio with
  | (.ok _, t1) => (.ok (), t1)
  | (.error _, t1) =>
    match git_checkout_new_branch exec branch cwd inherit_stdio with
    | (.ok _, t2) => (.ok (), t1 ++ t2)
    | (.error _, t2) =>
      match git_switch_branch exec branch cwd inherit_stdio with
      | (res, t3) => (res, t1 ++ t2 ++ t3)

/-- The call of `git_has_working_changes`: quiet diff with fallback echo
sentinel, capture hard-coded on. -/
def working_changes_call (cwd : String) : ShellCall :=
  { argv := ["bash", "-lc", "git diff --quiet || echo CHANGED"],
    inherit_stdio := false, cwd := cwd }

/-- `git_has_working_changes`: run the sentinel command with capture
forced, strip the captured stdout and compare it to the literal
`"CHANGED"`. -/
def git_has_working_changes (exec : Exec) (cwd : String) :
    Except PyError Bool × List ShellCall :=
  (((exec (working_changes_call cwd)).bind stdout_strip).map (fun out => out == "CHANGED"),
   [working_changes_call cwd])

/-- The call of `git_has_index_changes`: quiet cached diff with fallback
echo sentinel, capture hard-coded on. -/
def index_changes_call (cwd : String) : ShellCall :=
  { argv := ["bash", "-lc", "git diff --cached --quiet || echo CHANGED"],
    inherit_stdio := false, cwd := cwd }

/-- `git_has_index_changes`: same sentinel pattern against the index. -/
def git_has_index_changes (exec : Exec) (cwd : String) :
    Except PyError Bool × List ShellCall :=
  (((exec (index_changes_call cwd)).bind stdout_strip).map (fun out => out == "CHANGED"),
   [index_changes_call cwd])

/-- The call of `git_tag_exists`: quiet verify of `refs/tags/<tag>`,
capture hard-coded on. -/
def tag_exists_call (tag : String) (cwd : String) : ShellCall :=
  { argv := ["git", "rev-parse", "-q", "--verify", "refs/tags/" ++ tag],
    inherit_stdio := false, cwd := cwd }

/-- `git_tag_exists`: non-empty stripped output means the tag exists; any
exception is swallowed into `false`. -/
def git_tag_exists (exec : Exec) (tag : String) (cwd : String) (inherit_stdio : Bool) :
    Except PyError Bool × List ShellCall :=
  (.ok (try_or (((exec (tag_exists_call tag cwd)).bind stdout_strip).map
      (fun out => out.length > 0)) false),
   [tag_exists_call tag cwd])

/-- The call of `git_get_current_commit_hash`: `git rev-parse [--short]
HEAD`, capture hard-coded on. -/
def commit_hash_call (short : Bool) (cwd : String) : ShellCall :=
  { argv := ["git", "rev-parse"] ++ (if short then ["--short"] else []) ++ ["HEAD"],
    inherit_stdio := false, cwd := cwd }

/-- `git_get_current_commit_hash`: stripped stdout of the rev-parse. -/
def git_get_current_commit_hash (exec : Exec) (cwd : String) (short : Bool) :
    Except PyError String × List ShellCall :=
  ((exec (commit_hash_call short cwd)).bind stdout_strip, [commit_hash_call short cwd])

/-- The call of `git_last_tag_matching`: shell pipeline listing matching
tags, version-sorted, last taken; capture hard-coded on. -/
def last_tag_call (pfx : String) (cwd : String) : ShellCall :=
  { argv := ["bash", "-lc", "git tag --list \x27" ++ pfx ++ "\x27 | sort -V | tail -n1"],
    inherit_stdio := false, cwd := cwd }

/-- The source's `git_last_tag_for_prefix` (renamed here): stripped
stdout, with Python `out or None` turning the empty string into
`None`. -/
def git_last_tag_matching (exec : Exec) (pfx : String) (cwd : String)
    (inherit_stdio : Bool) : Except PyError (Option String) × List ShellCall :=
  (((exec (last_tag_call pfx cwd)).bind stdout_strip).map
      (fun out => if out = "" then none else some out),
   [last_tag_call pfx cwd])

/-- A Python value as used inside `git_push_follow_tags`: either a real
string or a `ShellResult` object returned by `git_run` (the source binds
the runner's result itself, without reading `.stdout`). -/
inductive PyVal where
  | str (s : String)
  | result (r : ShellResult)
  deriving DecidableEq, Repr

/-- Python `==` against a string literal: strings compare by content; a
`ShellResult` object (per the runner contract, a plain result record with
no string equality) is never equal to a string. -/
def py_eq_str : PyVal → String → Bool
  | .str s, t => s == t
  | .result _, _ => false

/-- Python `":" in s` on a real string. -/
def py_contains_colon (s : String) : Bool := s.data.any (fun c => c == ':')

/-- Python `s.split(":", 1)`: split at the first colon only; the remote
part keeps any further colons. -/
def py_split1_colon (s : String) : String × String :=
  (⟨s.data.takeWhile (fun c => !(c == ':'))⟩,
   ⟨(s.data.dropWhile (fun c => !(c == ':'))).drop 1⟩)

/-- Split a character list at every separator (Python `str.split(sep)`:
`"a\nb\n"` gives `["a", "b", ""]`). -/
def split_chars (sep : Char) : List Char → List (List Char)
  | [] => [[]]
  | c :: cs =>
    let r := split_chars sep cs
    if c == sep then [] :: r
    else
      match r with
      | [] => [[c]]
      | h :: t => (c :: h) :: t

/-- Python `v.split("\n")` under dynamic typing: defined on strings;
applied to a `ShellResult` object it raises `AttributeError` (the result
record has no `split` method). -/
def py_val_split_lines : PyVal → Except PyError (List String)
  | .str s => .ok ((split_chars '\n' s.data).map (fun l => ⟨l⟩))
  | .result _ => .error (.attributeError "ShellResult object has no attribute split")

/-- Python `v.strip()` under dynamic typing: defined on strings; applied
to a `ShellResult` object it raises `AttributeError`. -/
def py_val_strip : PyVal → Except PyError String
  | .str s => .ok (py_strip s)
  | .result _ => .error (.attributeError "ShellResult object has no attribute strip")

/-- The `git_run` wrapper: prepends `"git"` to the argument list and hands
the vector to the runner. -/
def git_run_call (args : List String) (cwd : String) (inherit_stdio : Bool) : ShellCall :=
  { argv := "git" :: args, inherit_stdio := inherit_stdio, cwd := cwd }

/-- The branch-listing call of `git_push_follow_tags`:
`git branch --format %(refname:short)`, capture on. -/
def branch_list_call (cwd : String) : ShellCall :=
  git_run_call ["branch", "--format", "%(refname:short)"] cwd false

/-- The remote-listing call of `git_push_follow_tags`: `git remote`,
capture on. -/
def remote_list_call (cwd : String) : ShellCall :=
  git_run_call ["remote"] cwd false

/-- The upstream probe of `git_push_follow_tags`:
`git for-each-ref refs/heads/<branch> --format=%(upstream:short)`. -/
def for_each_ref_call (local_branch : String) (cwd : String) : ShellCall :=
  git_run_call ["for-each-ref", "refs/heads/" ++ local_branch,
    "--format=%(upstream:short)"] cwd false

/-- The tracking push of `git_push_follow_tags`. -/
def push_set_upstream_call (remote refspec : String) (cwd : String)
    (inherit_stdio : Bool) : ShellCall :=
  git_run_call ["push", "--set-upstream", remote, refspec, "--follow-tags"] cwd inherit_stdio

/-- The plain push of `git_push_follow_tags`. -/
def push_plain_call (remote refspec : String) (cwd : String) (inherit_stdio : Bool) :
    ShellCall :=
  git_run_call ["push", remote, refspec, "--follow-tags"] cwd inherit_stdio

/-- The body of `git_push_follow_tags` from the `local:remote` parse
onward.  `bn` is the Python value bound to `branch_name` at that point: a
real string when the caller passed one, the raw `ShellResult` object when
the source assigned `branch_name = git_run(...)`.  Every subsequent line
of the source is embedded; the `local_branches_output.split("\n")` /
`remotes_output.split("\n")` / `.strip()` steps apply string methods to
the `ShellResult` objects returned by `git_run`, which under the runner
contract raises `AttributeError`. -/
def push_follow_tags_body (exec : Exec) (cwd : String) (inherit_stdio : Bool)
    (bn : PyVal) (remote : String) (t0 : List ShellCall) :
    Except PyError Unit × List ShellCall :=
  match bn with
  | .result _ =>
    -- `":" in branch_name` on the result object: TypeError.
    (.error (.typeError "argument of type ShellResult is not iterable"), t0)
  | .str s =>
    let lr := if py_contains_colon s then py_split1_colon s else (s, s)
    let local_branch := lr.1
    let remote_branch := lr.2
    match exec (branch_list_call cwd) with
    | .error e => (.error e, t0 ++ [branch_list_call cwd])
    | .ok r2 =>
      match py_val_split_lines (.result r2) with
      | .error e => (.error e, t0 ++ [branch_list_call cwd])
      | .ok lines =>
        let local_branches := lines.filter (fun b => !(py_strip b == ""))
        if !(local_branches.contains local_branch) then
          (.error (.valueError
            ("Local branch \x27" ++ local_branch ++ "\x27 does not exist.")),
           t0 ++ [branch_list_call cwd])
        else
          match exec (remote_list_call cwd) with
          | .error e => (.error e, t0 ++ [branch_list_call cwd, remote_list_call cwd])
          | .ok r3 =>
            match py_val_split_lines (.result r3) with
            | .error e => (.error e, t0 ++ [branch_list_call cwd, remote_list_call cwd])
            | .ok rlines =>
              let remotes := rlines.filter (fun b => !(py_strip b == ""))
              if !(remotes.contains remote) then
                (.error (.valueError
                  ("Remote \x27" ++ remote ++ "\x27 does not exist.")),
                 t0 ++ [branch_list_call cwd, remote_list_call cwd])
              else
                match exec (for_each_ref_call local_branch cwd) with
                | .error e =>
                  (.error e, t0 ++ [branch_list_call cwd, remote_list_call cwd,
                    for_each_ref_call local_branch cwd])
                | .ok r4 =>
                  match py_val_strip (.result r4) with
                  | .error e =>
                    (.error e, t0 ++ [branch_list_call cwd, remote_list_call cwd,
                      for_each_ref_call local_branch cwd])
                  | .ok upstream =>
                    let push_refspec := local_branch ++ ":" ++ remote_branch
                    if upstream = "" then
                      ((exec (push_set_upstream_call remote push_refspec cwd
                          inherit_stdio)).map (fun _ => ()),
                       t0 ++ [branch_list_call cwd, remote_list_call cwd,
                         for_each_ref_call local_branch cwd,
                         push_set_upstream_call remote push_refspec cwd inherit_stdio])
                    else
                      ((exec (push_plain_call remote push_refspec cwd
                          inherit_stdio)).map (fun _ => ()),
                       t0 ++ [branch_list_call cwd, remote_list_call cwd,
                         for_each_ref_call local_branch cwd,
                         push_plain_call remote push_refspec cwd inherit_stdio])

/-- `git_push_follow_tags`: when `branch_name` is `None`, `branch_name` is
re-bound to the raw `ShellResult` of `git rev-parse --abbrev-ref HEAD`
(the source never reads `.stdout`), compared with `== "HEAD"` for the
detached check, then handed to the rest of the body. -/
def git_push_follow_tags (exec : Exec) (cwd : String) (inherit_stdio : Bool)
    (branch_name : Option String) (remote : String) :
    Except PyError Unit × List ShellCall :=
  match branch_name with
  | none =>
    let c1 := git_run_call ["rev-parse", "--abbrev-ref", "HEAD"] cwd false
    match exec c1 with
    | .error e => (.error e, [c1])
    | .ok r =>
      if py_eq_str (.result r) "HEAD" then
        (.error (.runtimeError "Cannot push: detached HEAD state."), [c1])
      else push_follow_tags_body exec cwd inherit_stdio (.result r) remote [c1]
  | some s => push_follow_tags_body exec cwd inherit_stdio (.str s) remote []

/-- Modelled from the spec: the GitPython `Repo` object used by
`git_remote_create_once` (an external collaborator not under `src/`, §4.6
of the spec): it carries the repository's configured remotes as
name-to-url bindings. -/
structure PyRepo where
  remotes : List (String × String)
  deriving DecidableEq, Repr

/-- Modelled from the spec: GitPython `repo.remote(name=...)`, which
returns the existing remote of that name and raises `ValueError` when "a
remote of the given name" does not exist (§4.6). -/
def repo_remote (repo : PyRepo) (name : String) : Except PyError (String × String) :=
  match repo.remotes.find? (fun r => r.1 == name) with
  | some r => .ok r
  | none => .error (.valueError ("Remote named " ++ name ++ " did not exist"))

/-- Modelled from the spec: GitPython `repo.create_remote(name, url)`,
which registers the remote and returns the created handle (§4.6). -/
def create_remote (repo : PyRepo) (name url : String) : (String × String) × PyRepo :=
  ((name, url), { remotes := repo.remotes ++ [(name, url)] })

/-- `git_remote_create_once`: return `None` when `repo.remote(name)`
succeeds; on `ValueError`, create the remote and return its handle. -/
def git_remote_create_once (repo : PyRepo) (name url : String) :
    Option (String × String) × PyRepo :=
  match repo_remote repo name with
  | .ok _ => (none, repo)
  | .error _ =>
    match create_remote repo name url with
    | (r, repo2) => (some r, repo2)

/-- The URL currently bound to a remote name in the repository. -/
def remote_url (repo : PyRepo) (name : String) : Option String :=
  (repo.remotes.find? (fun r => r.1 == name)).map (fun r => r.2)

/-! ## Concrete runners used by the witnesses and counterexample evaluations -/

/-- A world for C1: one branch `main`, no upstream configured, binding to
the existing remote branch succeeds. -/
def exec_c1 : Exec := fun c =>
  if c.argv = ["git", "rev-parse", "--abbrev-ref", "HEAD"] then
    .ok { stdout := some "main\n", stderr := some "", exit_code := 0 }
  else if c.argv = ["git", "rev-parse", "--abbrev-ref", "--symbolic-full-name", "@\x7bu\x7d"] then
    .error (.commandError c.argv 128)
  else .ok { stdout := some "", stderr := some "", exit_code := 0 }

/-- A world for C2: branch `main` with upstream `origin/main` already
configured. -/
def exec_c2 : Exec := fun c =>
  if c.argv = ["git", "rev-parse", "--abbrev-ref", "HEAD"] then
    .ok { stdout := some "main\n", stderr := some "", exit_code := 0 }
  else if c.argv = ["git", "rev-parse", "--abbrev-ref", "--symbolic-full-name", "@\x7bu\x7d"] then
    .ok { stdout := some "origin/main\n", stderr := some "", exit_code := 0 }
  else .error (.commandError c.argv 1)

/-- A world for C3: detached HEAD, so `git rev-parse --abbrev-ref HEAD`
prints the literal `HEAD`. -/
def exec_c3 : Exec := fun c =>
  if c.argv = ["git", "rev-parse", "--abbrev-ref", "HEAD"] then
    .ok { stdout := some "HEAD\n", stderr := some "", exit_code := 0 }
  else .ok { stdout := some "", stderr := some "", exit_code := 0 }

/-- A world for C4: the only local branch is `main` and the only remote is
`origin`. -/
def exec_c4 : Exec := fun c =>
  if c.argv = ["git", "branch", "--format", "%(refname:short)"] then
    .ok { stdout := some "main\n", stderr := some "", exit_code := 0 }
  else if c.argv = ["git", "remote"] then
    .ok { stdout := some "origin\n", stderr := some "", exit_code := 0 }
  else .ok { stdout := some "", stderr := some "", exit_code := 0 }

/-- A world for C5: both branch-creation syntaxes fail (the branch already
exists), the plain switch succeeds. -/
def exec_c5 : Exec := fun c =>
  if c.argv = ["git", "switch", "-c", "dev"] then .error (.commandError c.argv 128)
  else if c.argv = ["git", "checkout", "-b", "dev"] then .error (.commandError c.argv 128)
  else .ok { stdout := some "", stderr := some "", exit_code := 0 }

/-- A world for C6: unstaged changes present (working-tree sentinel
fires), index clean. -/
def exec_c6 : Exec := fun c =>
  if c.argv = ["bash", "-lc", "git diff --quiet || echo CHANGED"] then
    .ok { stdout := some "CHANGED\n", stderr := some "", exit_code := 0 }
  else if c.argv = ["bash", "-lc", "git diff --cached --quiet || echo CHANGED"] then
    .ok { stdout := some "\n", stderr := some "", exit_code := 0 }
  else .error (.commandError c.argv 1)

/-- A world for C9: branch `a` exists, remote `origin` exists. -/
def exec_c9 : Exec := fun c =>
  if c.argv = ["git", "branch", "--format", "%(refname:short)"] then
    .ok { stdout := some "a\nmain\n", stderr := some "", exit_code := 0 }
  else if c.argv = ["git", "remote"] then
    .ok { stdout := some "origin\n", stderr := some "", exit_code := 0 }
  else .ok { stdout := some "", stderr := some "", exit_code := 0 }

/-- A world for C10: no upstream configured, every mutating command
succeeds. -/
def exec_c10 : Exec := fun c =>
  if c.argv = ["git", "rev-parse", "--abbrev-ref", "--symbolic-full-name", "@\x7bu\x7d"] then
    .error (.commandError c.argv 128)
  else .ok { stdout := some "main\n", stderr := some "", exit_code := 0 }

/-- If a predicate finds nothing in `l`, searching `l ++ l2` searches
`l2`. -/
theorem find?_append_of_none {α : Type} (p : α → Bool) (l l2 : List α)
    (h : l.find? p = none) : (l ++ l2).find? p = l2.find? p := by
  induction l with
  | nil => rfl
  | cons a l ih =>
    cases hp : p a with
    | true => simp [List.find?, hp] at h
    | false =>
      simp only [List.cons_append, List.find?, hp] at h ⊢
      exact ih h

/-! ## Claim theorems -/

/-- C2: when the current branch already has a non-empty upstream,
`git_ensure_upstream` returns that upstream string unchanged, its trace is
exactly the two capture-mode queries (current branch and upstream), and no
`git push` and no `git branch --set-upstream-to` command is issued. -/
theorem git_ensure_upstream_noop_when_upstream_exists
    (exec : Exec) (cwd : String) (d : Option String) (inh : Bool)
    (r1 r2 : ShellResult) (s1 s2 : String)
    (h1 : exec (rev_parse_head_call cwd) = .ok r1) (h2 : r1.stdout = some s1)
    (h3 : exec (upstream_call cwd) = .ok r2) (h4 : r2.stdout = some s2)
    (h5 : py_strip s2 ≠ "") :
    git_ensure_upstream exec cwd d inh =
      (.ok (py_strip s2), [rev_parse_head_call cwd, upstream_call cwd]) ∧
    ((git_ensure_upstream exec cwd d inh).2.all
      (fun c => !(is_push_cmd c) && !(is_set_upstream_cmd c))) = true := by
  have hb : git_current_branch exec cwd false =
      (.ok (py_strip s1), [rev_parse_head_call cwd]) := by
    simp [git_current_branch, h1, h2, stdout_strip, Except.bind]
  have hu : git_get_upstream exec cwd false =
      (.ok (py_strip s2), [upstream_call cwd]) := by
    simp [git_get_upstream, h3, h4, stdout_strip, try_or, Except.bind]
  have hmain : git_ensure_upstream exec cwd d inh =
      (.ok (py_strip s2), [rev_parse_head_call cwd, upstream_call cwd]) := by
    simp [git_ensure_upstream, hb, hu, h5]
  refine ⟨hmain, ?_⟩
  rw [hmain]
  rfl

/-- Witness for C2: in a world where branch `main` already tracks
`origin/main`, the call returns `"origin/main"` and issues only the two
read-only queries. -/
theorem git_ensure_upstream_noop_when_upstream_exists_witness :
    git_ensure_upstream exec_c2 "/repo" none true =
      (.ok "origin/main", [rev_parse_head_call "/repo", upstream_call "/repo"]) ∧
    ((git_ensure_upstream exec_c2 "/repo" none true).2.all
      (fun c => !(is_push_cmd c) && !(is_set_upstream_cmd c))) = true := by
  have h := git_ensure_upstream_noop_when_upstream_exists exec_c2 "/repo" none true
    { stdout := some "main\n", stderr := some "", exit_code := 0 }
    { stdout := some "origin/main\n", stderr := some "", exit_code := 0 }
    "main\n" "origin/main\n" rfl (by decide) rfl (by decide) (by decide)
  have e : py_strip "origin/main\n" = "origin/main" := by decide
  rw [e] at h
  exact h

/-- C1: when the current branch has no upstream, `git_ensure_upstream`
returns exactly `<default_remote>/<branch>` (with the remote defaulting to
`origin` via Python `or`) in both success paths: when the
`--set-upstream-to` binding succeeds, and when it fails and the `git push
-u` fallback succeeds; the trace shows the corresponding mutating command
was issued. -/
theorem git_ensure_upstream_sets_and_returns
    (exec : Exec) (cwd : String) (d : Option String) (inh : Bool)
    (r1 : ShellResult) (s1 : String)
    (h1 : exec (rev_parse_head_call cwd) = .ok r1) (h2 : r1.stdout = some s1)
    (hup : (git_get_upstream exec cwd false).1 = .ok "") :
    (∀ rs, exec (set_upstream_call (py_or d "origin") (py_strip s1) cwd inh) = .ok rs →
      git_ensure_upstream exec cwd d inh =
        (.ok (py_or d "origin" ++ "/" ++ py_strip s1),
         [rev_parse_head_call cwd, upstream_call cwd,
          set_upstream_call (py_or d "origin") (py_strip s1) cwd inh])) ∧
    (∀ e rp, exec (set_upstream_call (py_or d "origin") (py_strip s1) cwd inh) = .error e →
      exec (push_u_call (py_or d "origin") (py_strip s1) cwd inh) = .ok rp →
      git_ensure_upstream exec cwd d inh =
        (.ok (py_or d "origin" ++ "/" ++ py_strip s1),
         [rev_parse_head_call cwd, upstream_call cwd,
          set_upstream_call (py_or d "origin") (py_strip s1) cwd inh,
          push_u_call (py_or d "origin") (py_strip s1) cwd inh])) := by
  have hb : git_current_branch exec cwd false =
      (.ok (py_strip s1), [rev_parse_head_call cwd]) := by
    simp [git_current_branch, h1, h2, stdout_strip, Except.bind]
  have hu : git_get_upstream exec cwd false = (.ok "", [upstream_call cwd]) := by
    have h0 : git_get_upstream exec cwd false =
        ((git_get_upstream exec cwd false).1, [upstream_call cwd]) := rfl
    rw [hup] at h0
    exact h0
  constructor
  · intro rs hset
    simp [git_ensure_upstream, hb, hu, git_set_upstream, hset, Except.map]
  · intro e rp hset hpush
    simp [git_ensure_upstream, hb, hu, git_set_upstream, hset, hpush, Except.map]

/-- Witness for C1: in a world with branch `main`, no upstream and a
successful binding, the call returns `"origin/main"` and issues the
set-upstream command. -/
theorem git_ensure_upstream_sets_and_returns_witness :
    git_ensure_upstream exec_c1 "/repo" none true =
      (.ok "origin/main",
       [rev_parse_head_call "/repo", upstream_call "/repo",
        set_upstream_call "origin" "main" "/repo" true]) := by
  have h := (git_ensure_upstream_sets_and_returns exec_c1 "/repo" none true
    { stdout := some "main\n", stderr := some "", exit_code := 0 }
    "main\n" rfl (by decide) rfl).1
    { stdout := some "", stderr := some "", exit_code := 0 } rfl
  have e : py_strip "main\n" = "main" := by decide
  rw [e] at h
  exact h

/-- C10: a falsy `default_remote` (omitted/`None` or the empty string) is
replaced by `"origin"` by the Python `or`, so the whole call behaves
exactly as if `"origin"` had been passed explicitly (same result string,
same issued commands). -/
theorem git_ensure_upstream_falsy_remote_defaults_origin
    (exec : Exec) (cwd : String) (inh : Bool) (d : Option String)
    (h : d = none ∨ d = some "") :
    py_or d "origin" = "origin" ∧
    git_ensure_upstream exec cwd d inh =
      git_ensure_upstream exec cwd (some "origin") inh := by
  have hp : py_or d "origin" = "origin" := by
    rcases h with h | h <;> simp [h, py_or]
  have hp2 : py_or (some "origin") "origin" = "origin" := by simp [py_or]
  refine ⟨hp, ?_⟩
  unfold git_ensure_upstream
  rw [hp, hp2]

/-- Witness for C10: with `default_remote` omitted, the call in a concrete
no-upstream world equals the explicit-`origin` call. -/
theorem git_ensure_upstream_falsy_remote_defaults_origin_witness :
    py_or none "origin" = "origin" ∧
    git_ensure_upstream exec_c10 "/repo" none true =
      git_ensure_upstream exec_c10 "/repo" (some "origin") true :=
  git_ensure_upstream_falsy_remote_defaults_origin exec_c10 "/repo" true none (Or.inl rfl)

/-- C5: `git_create_or_switch_branch` attempts, in strict order, `git
switch -c`, `git checkout -b`, `git switch`; it stops at the first
attempt that succeeds, failures of the first two attempts are suppressed,
and only a failure of the third attempt propagates. -/
theorem git_create_or_switch_branch_fallback_chain
    (exec : Exec) (b cwd : String) (inh : Bool) :
    (∀ r, exec (switch_new_call b cwd inh) = .ok r →
      git_create_or_switch_branch exec b cwd inh =
        (.ok (), [switch_new_call b cwd inh])) ∧
    (∀ e1 r, exec (switch_new_call b cwd inh) = .error e1 →
      exec (checkout_new_call b cwd inh) = .ok r →
      git_create_or_switch_branch exec b cwd inh =
        (.ok (), [switch_new_call b cwd inh, checkout_new_call b cwd inh])) ∧
    (∀ e1 e2 r, exec (switch_new_call b cwd inh) = .error e1 →
      exec (checkout_new_call b cwd inh) = .error e2 →
      exec (switch_call b cwd inh) = .ok r →
      git_create_or_switch_branch exec b cwd inh =
        (.ok (), [switch_new_call b cwd inh, checkout_new_call b cwd inh,
          switch_call b cwd inh])) ∧
    (∀ e1 e2 e3, exec (switch_new_call b cwd inh) = .error e1 →
      exec (checkout_new_call b cwd inh) = .error e2 →
      exec (switch_call b cwd inh) = .error e3 →
      git_create_or_switch_branch exec b cwd inh =
        (.error e3, [switch_new_call b cwd inh, checkout_new_call b cwd inh,
          switch_call b cwd inh])) := by
  refine ⟨?_, ?_, ?_, ?_⟩
  · intro r h1
    simp [git_create_or_switch_branch, git_switch_new_branch, git_checkout_new_branch,
      git_switch_branch, h1, Except.map]
  · intro e1 r h1 h2
    simp [git_create_or_switch_branch, git_switch_new_branch, git_checkout_new_branch,
      git_switch_branch, h1, h2, Except.map]
  · intro e1 e2 r h1 h2 h3
    simp [git_create_or_switch_branch, git_switch_new_branch, git_checkout_new_branch,
      git_switch_branch, h1, h2, h3, Except.map]
  · intro e1 e2 e3 h1 h2 h3
    simp [git_create_or_switch_branch, git_switch_new_branch, git_checkout_new_branch,
      git_switch_branch, h1, h2, h3, Except.map]

/-- Witness for C5: in a world where both creation syntaxes fail and the
plain switch succeeds, all three commands are attempted in order and the
call succeeds. -/
theorem git_create_or_switch_branch_fallback_chain_witness :
    git_create_or_switch_branch exec_c5 "dev" "/repo" true =
      (.ok (), [switch_new_call "dev" "/repo" true, checkout_new_call "dev" "/repo" true,
        switch_call "dev" "/repo" true]) :=
  (git_create_or_switch_branch_fallback_chain exec_c5 "dev" "/repo" true).2.2.1
    (.commandError ["git", "switch", "-c", "dev"] 128)
    (.commandError ["git", "checkout", "-b", "dev"] 128)
    { stdout := some "", stderr := some "", exit_code := 0 }
    rfl rfl rfl

/-- C6: `git_has_working_changes` and `git_has_index_changes` run their
sentinel command with capture forced and return `True` exactly when the
stripped captured stdout equals the literal `"CHANGED"`, `False`
otherwise; the exit code of the result plays no role (it is unconstrained
here and absent from the conclusion). -/
theorem git_has_changes_sentinel_equality
    (exec : Exec) (cwd : String) (rwk rik : ShellResult) (sw si : String)
    (hw : exec (working_changes_call cwd) = .ok rwk) (hw2 : rwk.stdout = some sw)
    (hi : exec (index_changes_call cwd) = .ok rik) (hi2 : rik.stdout = some si) :
    git_has_working_changes exec cwd =
      (.ok (py_strip sw == "CHANGED"), [working_changes_call cwd]) ∧
    git_has_index_changes exec cwd =
      (.ok (py_strip si == "CHANGED"), [index_changes_call cwd]) ∧
    ((git_has_working_changes exec cwd).1 = .ok true ↔ py_strip sw = "CHANGED") ∧
    ((git_has_index_changes exec cwd).1 = .ok true ↔ py_strip si = "CHANGED") := by
  have h1 : git_has_working_changes exec cwd =
      (.ok (py_strip sw == "CHANGED"), [working_changes_call cwd]) := by
    simp [git_has_working_changes, hw, hw2, stdout_strip, Except.bind, Except.map]
  have h2 : git_has_index_changes exec cwd =
      (.ok (py_strip si == "CHANGED"), [index_changes_call cwd]) := by
    simp [git_has_index_changes, hi, hi2, stdout_strip, Except.bind, Except.map]
  refine ⟨h1, h2, ?_, ?_⟩
  · rw [h1]
    simp
  · rw [h2]
    simp

/-- Witness for C6: dirty working tree (sentinel emitted) gives `True`,
clean index (no sentinel) gives `False`. -/
theorem git_has_changes_sentinel_equality_witness :
    git_has_working_changes exec_c6 "/repo" =
      (.ok true, [working_changes_call "/repo"]) ∧
    git_has_index_changes exec_c6 "/repo" =
      (.ok false, [index_changes_call "/repo"]) := by
  have h := git_has_changes_sentinel_equality exec_c6 "/repo"
    { stdout := some "CHANGED\n", stderr := some "", exit_code := 0 }
    { stdout := some "\n", stderr := some "", exit_code := 0 }
    "CHANGED\n" "\n" rfl (by decide) rfl (by decide)
  have e1 : (py_strip "CHANGED\n" == "CHANGED") = true := by decide
  have e2 : (py_strip "\n" == "CHANGED") = false := by decide
  refine ⟨?_, ?_⟩
  · have := h.1
    rw [e1] at this
    exact this
  · have := h.2.1
    rw [e2] at this
    exact this

/-- C7: `git_remote_create_once` is idempotent: on a repository where the
name is fresh, the first call returns the created handle and registers
the remote; the second call with the same name returns `none` and leaves
the repository (in particular the remote's URL) unchanged. -/
theorem git_remote_create_once_idempotent
    (repo : PyRepo) (name url : String)
    (h : repo.remotes.all (fun r => !(r.1 == name)) = true) :
    (git_remote_create_once repo name url).1 = some (name, url) ∧
    (git_remote_create_once (git_remote_create_once repo name url).2 name url).1 = none ∧
    (git_remote_create_once (git_remote_create_once repo name url).2 name url).2 =
      (git_remote_create_once repo name url).2 ∧
    remote_url (git_remote_create_once (git_remote_create_once repo name url).2 name url).2
      name = some url := by
  have hfind : repo.remotes.find? (fun r => r.1 == name) = none := by
    apply List.find?_eq_none.mpr
    intro x hx
    have hx2 := List.all_eq_true.mp h x hx
    simp at hx2
    simp [hx2]
  have hstep : git_remote_create_once repo name url =
      (some (name, url), ⟨repo.remotes ++ [(name, url)]⟩) := by
    simp [git_remote_create_once, repo_remote, hfind, create_remote]
  have hfind2 : (repo.remotes ++ [(name, url)]).find? (fun r => r.1 == name) =
      some (name, url) := by
    rw [find?_append_of_none _ _ _ hfind]
    simp [List.find?]
  have hstep2 : git_remote_create_once (⟨repo.remotes ++ [(name, url)]⟩ : PyRepo) name url =
      (none, ⟨repo.remotes ++ [(name, url)]⟩) := by
    simp [git_remote_create_once, repo_remote, hfind2]
  rw [hstep]
  refine ⟨rfl, ?_, ?_, ?_⟩
  · rw [hstep2]
  · rw [hstep2]
  · rw [hstep2]
    simp [remote_url, hfind2]

/-- Witness for C7: creating `origin` twice on an empty repository. -/
theorem git_remote_create_once_idempotent_witness :
    (git_remote_create_once ⟨[]⟩ "origin" "https://example/r.git").1 =
      some ("origin", "https://example/r.git") ∧
    (git_remote_create_once (git_remote_create_once ⟨[]⟩ "origin"
        "https://example/r.git").2 "origin" "https://example/r.git").1 = none ∧
    (git_remote_create_once (git_remote_create_once ⟨[]⟩ "origin"
        "https://example/r.git").2 "origin" "https://example/r.git").2 =
      (git_remote_create_once ⟨[]⟩ "origin" "https://example/r.git").2 ∧
    remote_url (git_remote_create_once (git_remote_create_once ⟨[]⟩ "origin"
        "https://example/r.git").2 "origin" "https://example/r.git").2 "origin" =
      some "https://example/r.git" :=
  git_remote_create_once_idempotent ⟨[]⟩ "origin" "https://example/r.git" (by decide)

/-- C8: every output-parsing query function (current branch, upstream,
tag existence, commit hash, last tag for prefix) issues its shell call
with capture forced (`inherit_stdio := false`), for every value of the
caller-supplied flag. -/
theorem query_functions_force_capture
    (exec : Exec) (cwd tag pfx : String) (flag short : Bool) :
    ((git_current_branch exec cwd flag).2.all (fun c => !c.inherit_stdio)) = true ∧
    ((git_get_upstream exec cwd flag).2.all (fun c => !c.inherit_stdio)) = true ∧
    ((git_tag_exists exec tag cwd flag).2.all (fun c => !c.inherit_stdio)) = true ∧
    ((git_get_current_commit_hash exec cwd short).2.all (fun c => !c.inherit_stdio)) = true ∧
    ((git_last_tag_matching exec pfx cwd flag).2.all (fun c => !c.inherit_stdio)) = true :=
  ⟨rfl, rfl, rfl, rfl, rfl⟩

/-- C3 (counterexample): the detached-HEAD `RuntimeError` is unreachable
in every world, detached HEAD included.  The source compares the raw
`ShellResult` of `git_run` (never its stdout) to `"HEAD"`, which is
always false, and then fails at the `":" in branch_name` check with a
`TypeError`: whenever the rev-parse succeeds — whatever its stdout, so in
particular when it prints the literal `HEAD` — the `branch_name=None`
call returns the `TypeError`, never the claimed detached-HEAD error, and
issues no push command. -/
theorem git_push_follow_tags_detached_head_not_raised
    (exec : Exec) (cwd : String) (inh : Bool) (remote : String) (r : ShellResult)
    (h : exec (git_run_call ["rev-parse", "--abbrev-ref", "HEAD"] cwd false) = .ok r) :
    git_push_follow_tags exec cwd inh none remote =
      (.error (.typeError "argument of type ShellResult is not iterable"),
       [git_run_call ["rev-parse", "--abbrev-ref", "HEAD"] cwd false]) ∧
    (git_push_follow_tags exec cwd inh none remote).1 ≠
      .error (.runtimeError "Cannot push: detached HEAD state.") ∧
    ((git_push_follow_tags exec cwd inh none remote).2.all
      (fun c => !(is_push_cmd c))) = true := by
  have hmain : git_push_follow_tags exec cwd inh none remote =
      (.error (.typeError "argument of type ShellResult is not iterable"),
       [git_run_call ["rev-parse", "--abbrev-ref", "HEAD"] cwd false]) := by
    simp [git_push_follow_tags, h, py_eq_str, push_follow_tags_body]
  refine ⟨hmain, ?_, ?_⟩
  · rw [hmain]
    simp
  · rw [hmain]
    rfl

/-- Witness for C3: the detached-HEAD world itself (`git rev-parse
--abbrev-ref HEAD` prints the literal `HEAD`): the call raises the
`TypeError`, not the detached-HEAD `RuntimeError`, and issues no push. -/
theorem git_push_follow_tags_detached_head_not_raised_witness :
    git_push_follow_tags exec_c3 "/repo" true none "origin" =
      (.error (.typeError "argument of type ShellResult is not iterable"),
       [git_run_call ["rev-parse", "--abbrev-ref", "HEAD"] "/repo" false]) ∧
    (git_push_follow_tags exec_c3 "/repo" true none "origin").1 ≠
      .error (.runtimeError "Cannot push: detached HEAD state.") ∧
    ((git_push_follow_tags exec_c3 "/repo" true none "origin").2.all
      (fun c => !(is_push_cmd c))) = true :=
  git_push_follow_tags_detached_head_not_raised exec_c3 "/repo" true "origin"
    { stdout := some "HEAD\n", stderr := some "", exit_code := 0 } rfl

/-- C4 (counterexample evaluation): asking to push the nonexistent local
branch `missing` in a repository whose only branch is `main` does not
produce the descriptive `ValueError`: the source applies `.split("\n")`
to the raw `ShellResult` of the branch-listing `git_run`, which fails
with an `AttributeError` before any validation; no push command is
issued. -/
theorem git_push_follow_tags_validation_unreachable :
    git_push_follow_tags exec_c4 "/repo" true (some "missing") "origin" =
      (.error (.attributeError "ShellResult object has no attribute split"),
       [branch_list_call "/repo"]) ∧
    (git_push_follow_tags exec_c4 "/repo" true (some "missing") "origin").1 ≠
      .error (.valueError "Local branch \x27missing\x27 does not exist.") ∧
    ((git_push_follow_tags exec_c4 "/repo" true (some "missing") "origin").2.all
      (fun c => !(is_push_cmd c))) = true := by
  refine ⟨by decide, by decide, by decide⟩

/-- C9 (counterexample evaluation): the colon parse itself takes the
first colon (`"a:b:c"` gives local `"a"`, remote `"b:c"`), but no push
refspec is ever sent to the external tool: the call fails with an
`AttributeError` at the branch-listing step, before any push. -/
theorem git_push_follow_tags_colon_split_no_push :
    py_contains_colon "a:b:c" = true ∧
    py_split1_colon "a:b:c" = ("a", "b:c") ∧
    git_push_follow_tags exec_c9 "/repo" true (some "a:b:c") "origin" =
      (.error (.attributeError "ShellResult object has no attribute split"),
       [branch_list_call "/repo"]) ∧
    ((git_push_follow_tags exec_c9 "/repo" true (some "a:b:c") "origin").2.all
      (fun c => !(is_push_cmd c))) = true := by
  refine ⟨by decide, by decide, by decide, by decide⟩
